import Mathlib

/-
Verification of the natural-language specification of the dataset loader CLI
(src/Week 9 Project/load_alex_emails.py) against a shallow embedding of the
script.  The filesystem, the CSV parser (pandas.read_csv) and the pickle
writer (DataFrame.to_pickle) are abstracted as oracles carried by a `World`
record; the script itself (find_file_by_name, load_csv, main) is translated
line by line into pure Lean functions over that record.
-/

namespace LoadAlexEmails

/-- Kind of a filesystem entry: a regular file or a directory. -/
inductive FileKind where
  | file
  | dir
  deriving DecidableEq

/-- A filesystem entry as produced by the recursive search (`Path.rglob`):
its full path, its final name component, and its kind. -/
structure FSEntry where
  path : String
  name : String
  kind : FileKind
  deriving DecidableEq

/-- The ambient world the script runs in.
`stat s` is the entry found at path `s` relative to the current directory
(`none` when `Path(s).exists()` is false); `tree` is the recursive listing
of the resolved search root in traversal order, consulted by `rglob`;
`readCsv path enc` is the pandas parser oracle, returning the header and the
rows or the message of the raised exception; `pickleWrite path` is the
pickle oracle, `none` on success and the exception message on failure. -/
structure World where
  stat : String → Option FileKind
  tree : List FSEntry
  readCsv : String → String → Except String (List String × List (List String))
  pickleWrite : String → Option String

/-- Python `Path(s).exists()`. -/
def pathExists (w : World) (s : String) : Bool :=
  (w.stat s).isSome

/-- Whether `needle` occurs as a contiguous sublist of the second list;
embeds the Python substring test `needle in hay`. -/
def listHasSub (needle : List Char) : List Char → Bool
  | [] => needle.isEmpty
  | c :: t => needle.isPrefixOf (c :: t) || listHasSub needle t

/-- The characters of a string, lowercased; embeds Python str.lower() on
the names handled here. -/
def lowerChars (s : String) : List Char :=
  s.data.map Char.toLower

/-- Whether the list ends with the given suffix. -/
def endsWithSuffix (l suf : List Char) : Bool :=
  suf.reverse.isPrefixOf l.reverse

/-- The stage-3 filter of find_file_by_name: the entry name matches the
glob `*.csv` (it ends with that case-sensitive suffix) and contains the
lowered target name as a substring of its lowered form
(`lowered in p.name.lower()`). -/
def csvSubstringMatch (name : String) (e : FSEntry) : Bool :=
  endsWithSuffix e.name.data ".csv".data
    && listHasSub (lowerChars name) (lowerChars e.name)

/-- Embedding of find_file_by_name (source lines 21-34): return the literal
candidate when it exists, else the first exact-name match of the recursive
traversal, else the first `*.csv` entry whose lowered name contains the
lowered target, else none. -/
def find_file_by_name (w : World) (name : String) : Option String :=
  if pathExists w name then some name
  else
    match (w.tree.filter (fun e => e.name == name)).head? with
    | some e => some e.path
    | none => ((w.tree.filter (csvSubstringMatch name)).head?).map FSEntry.path

/-- The index of a pandas DataFrame: either the default positional
RangeIndex, or a named column promoted by set_index. -/
inductive DFIndex where
  | positional
  | labeled (name : String) (values : List String)
  deriving DecidableEq

/-- An in-memory table: header, data rows (index excluded), and index. -/
structure DataFrame where
  columns : List String
  rows : List (List String)
  index : DFIndex
  deriving DecidableEq

/-- Position of column `c` in the header, first occurrence. -/
def colIndex (cols : List String) (c : String) : Option Nat :=
  match cols with
  | [] => none
  | a :: t => if a == c then some 0 else (colIndex t c).map (fun i => i + 1)

/-- The values of column `c`, read off the rows ([] when absent). -/
def columnValues (cols : List String) (rows : List (List String)) (c : String) : List String :=
  match colIndex cols c with
  | some i => rows.map (fun r => r.getD i "")
  | none => []

/-- pandas df.set_index(col): move the column out of the header and the
rows and install its values as the index; identity when absent. -/
def DataFrame.setIndex (df : DataFrame) (col : String) : DataFrame :=
  match colIndex df.columns col with
  | none => df
  | some i =>
    { columns := df.columns.eraseIdx i,
      rows := df.rows.map (fun r => r.eraseIdx i),
      index := DFIndex.labeled col (df.rows.map (fun r => r.getD i "")) }

/-- pandas df.head(n) = df.iloc[:n]: the first n rows when n is
nonnegative, all rows but the last |n| when n is negative. -/
def DataFrame.headRows (df : DataFrame) (n : Int) : List (List String) :=
  if 0 ≤ n then df.rows.take n.toNat
  else df.rows.take (df.rows.length - n.natAbs)

/-- Python truthiness of an optional string: None and the empty string are
falsy. -/
def pyTruthy : Option String → Bool
  | none => false
  | some s => s != ""

/-- Embedding of load_csv (source lines 37-42): parse, then promote
index_col to the index when it is truthy and present among the columns. -/
def load_csv (w : World) (path : String) (encoding : String)
    (index_col : Option String) : Except String DataFrame :=
  match w.readCsv path encoding with
  | Except.error e => Except.error e
  | Except.ok (cols, rows) =>
    let df : DataFrame := ⟨cols, rows, DFIndex.positional⟩
    Except.ok
      (if pyTruthy index_col && df.columns.contains (index_col.getD "")
       then df.setIndex (index_col.getD "")
       else df)

/-- The parsed command-line arguments, with the argparse defaults of the
source (lines 47-51). -/
structure Args where
  path : Option String := none
  encoding : String := "latin-1"
  noIndex : Bool := false
  head : Int := 5
  savePickle : Option String := none
  deriving DecidableEq

/-- One print statement of main, with its payload. -/
inductive OutLine where
  | fileNotFound (path : String)
  | couldNotFind (name : String)
  | loading (path : String) (encoding : String)
  | loadError (msg : String)
  | loadedOk
  | shape (nrows ncols : Nat)
  | columnsLine (cols : List String)
  | showingTop (rows : List (List String))
  | wrotePickle (path : String)
  deriving DecidableEq

/-- How the process ends: an explicit return code of main, or an uncaught
exception propagating out of main (Python then prints a traceback). -/
inductive Outcome where
  | exited (code : Int)
  | raised (msg : String)
  deriving DecidableEq

/-- Observable result of one invocation: the outcome, the lines printed to
standard output, the files written, and the table held in memory. -/
structure RunResult where
  outcome : Outcome
  output : List OutLine
  writes : List String
  loaded : Option DataFrame
  deriving DecidableEq

/-- The default dataset name (source line 61). -/
def targetName : String := "Alex_emails_march_04.csv"

/-- Embedding of main from the point where file_path is resolved (source
lines 68-87): load, report, preview when head is truthy, pickle when
requested.  to_pickle sits outside the try/except, so its failure is an
uncaught exception. -/
def runLoaded (w : World) (a : Args) (fp : String) : RunResult :=
  let pre := [OutLine.loading fp a.encoding]
  match load_csv w fp a.encoding (if a.noIndex then none else some "email_id") with
  | Except.error e => ⟨Outcome.exited 4, pre ++ [OutLine.loadError e], [], none⟩
  | Except.ok df =>
    let out1 := pre ++ [OutLine.loadedOk,
      OutLine.shape df.rows.length df.columns.length,
      OutLine.columnsLine df.columns]
    let out2 := if a.head != 0
      then out1 ++ [OutLine.showingTop (df.headRows a.head)]
      else out1
    if pyTruthy a.savePickle then
      match w.pickleWrite (a.savePickle.getD "") with
      | none => ⟨Outcome.exited 0,
          out2 ++ [OutLine.wrotePickle (a.savePickle.getD "")],
          [a.savePickle.getD ""], some df⟩
      | some msg => ⟨Outcome.raised msg, out2, [], some df⟩
    else ⟨Outcome.exited 0, out2, [], some df⟩

/-- Embedding of main (source lines 45-87): resolve file_path from the
explicit path or by searching, then run the loading pipeline. -/
def main (w : World) (a : Args) : RunResult :=
  if pyTruthy a.path then
    if pathExists w (a.path.getD "") then runLoaded w a (a.path.getD "")
    else ⟨Outcome.exited 2, [OutLine.fileNotFound (a.path.getD "")], [], none⟩
  else
    match find_file_by_name w targetName with
    | none => ⟨Outcome.exited 3, [OutLine.couldNotFind targetName], [], none⟩
    | some fp => runLoaded w a fp

/-- The invocation resolved its input file to `fp`: either a truthy
explicit path that exists, or a search hit. -/
def resolvedTo (w : World) (a : Args) (fp : String) : Prop :=
  (pyTruthy a.path = true ∧ a.path = some fp ∧ pathExists w fp = true)
  ∨ (pyTruthy a.path = false ∧ find_file_by_name w targetName = some fp)

/- Concrete worlds and argument vectors used by the witness theorems. -/

/-- A small header with an email_id column. -/
def sampleCols : List String := ["email_id", "subject"]

/-- Four sample data rows. -/
def sampleRows : List (List String) :=
  [["e1", "hello"], ["e2", "re"], ["e3", "fwd"], ["e4", "news"]]

/-- A world where `data.csv` exists, parses under latin-1, and pickle
writes succeed. -/
def wOk : World :=
  { stat := fun s => if s == "data.csv" then some FileKind.file else none,
    tree := [],
    readCsv := fun p e =>
      if p == "data.csv" && e == "latin-1"
      then Except.ok (sampleCols, sampleRows)
      else Except.error "codec error",
    pickleWrite := fun _ => none }

/-- A world with nothing at the literal candidate paths and a traversal
containing a text file and one loosely-named csv file. -/
def wSearch : World :=
  { stat := fun _ => none,
    tree := [FSEntry.mk "sub/notes.txt" "notes.txt" FileKind.file,
             FSEntry.mk "docs/Q3-REPORT.csv" "Q3-REPORT.csv" FileKind.file],
    readCsv := fun _ _ => Except.error "codec error",
    pickleWrite := fun _ => none }

/-- A world where `plain.csv` exists and parses to a table with no
email_id column. -/
def wNoId : World :=
  { stat := fun s => if s == "plain.csv" then some FileKind.file else none,
    tree := [],
    readCsv := fun p e =>
      if p == "plain.csv" && e == "latin-1"
      then Except.ok (["id", "subject"], [["1", "hi"]])
      else Except.error "codec error",
    pickleWrite := fun _ => none }

/-- An explicit path to the email_id-free sample file. -/
def aPlain : Args := { path := some "plain.csv" }

/-- A world where loading succeeds but every pickle write raises. -/
def wBadPickle : World :=
  { stat := fun s => if s == "data.csv" then some FileKind.file else none,
    tree := [],
    readCsv := fun _ _ => Except.ok (sampleCols, sampleRows),
    pickleWrite := fun _ => some "No space left on device" }

/-- A world whose only entries are directories: the literal candidate
`build` is a directory, and the traversal holds a directory named like the
target. -/
def wDirs : World :=
  { stat := fun s => if s == "build" then some FileKind.dir else none,
    tree := [FSEntry.mk "a/target.csv" "target.csv" FileKind.dir],
    readCsv := fun _ _ => Except.error "is a directory",
    pickleWrite := fun _ => none }

/-- All-defaults invocation. -/
def aDefault : Args := {}

/-- An explicit path to the sample file. -/
def aExplicit : Args := { path := some "data.csv" }

/-- An explicit path to a file that does not exist. -/
def aMissing : Args := { path := some "missing.csv" }

/-- Explicit path with index promotion disabled. -/
def aNoIndex : Args := { path := some "data.csv", noIndex := true }

/-- Explicit path with preview disabled. -/
def aHead0 : Args := { path := some "data.csv", head := 0 }

/-- Explicit path asking for three preview rows. -/
def aHead3 : Args := { path := some "data.csv", head := 3 }

/-- Explicit path asking for a negative preview count. -/
def aHeadNeg : Args := { path := some "data.csv", head := -1 }

/-- Explicit path plus a pickle output path. -/
def aPickle : Args := { path := some "data.csv", savePickle := some "out.pkl" }

/- Helper lemmas shared by the claim theorems. -/

theorem main_eq_runLoaded (w : World) (a : Args) (fp : String)
    (h : resolvedTo w a fp) : main w a = runLoaded w a fp := by
  rcases h with ⟨ht, hp, he⟩ | ⟨hf, hs⟩
  · have hg : a.path.getD "" = fp := by rw [hp]; rfl
    simp only [main, ht, if_true, hg, he]
  · simp only [main, hf, Bool.false_eq_true, if_false, hs]

theorem contains_colIndex (cols : List String) (c : String)
    (h : cols.contains c = true) : ∃ i, colIndex cols c = some i := by
  induction cols with
  | nil => simp [List.contains] at h
  | cons a t ih =>
    by_cases hac : a == c
    · exact ⟨0, by simp [colIndex, hac]⟩
    · simp only [List.contains_cons, Bool.or_eq_true] at h
      rcases h with h | h
      · rw [BEq.comm] at h
        exact absurd h hac
      · obtain ⟨i, hi⟩ := ih h
        exact ⟨i + 1, by simp [colIndex, hac, hi]⟩

theorem colIndex_none (cols : List String) (c : String)
    (h : cols.contains c = false) : colIndex cols c = none := by
  induction cols with
  | nil => rfl
  | cons a t ih =>
    simp only [List.contains_cons, Bool.or_eq_false_iff] at h
    have hac : (a == c) = false := by
      cases hb : a == c
      · rfl
      · rw [BEq.comm] at hb; rw [hb] at h; simp at h
    simp [colIndex, hac, ih h.2]

theorem load_csv_error (w : World) (p enc e : String) (ic : Option String)
    (hr : w.readCsv p enc = Except.error e) :
    load_csv w p enc ic = Except.error e := by
  unfold load_csv
  rw [hr]

theorem load_csv_ok_exists (w : World) (p enc : String) (ic : Option String)
    (cols : List String) (rows : List (List String))
    (hr : w.readCsv p enc = Except.ok (cols, rows)) :
    ∃ df, load_csv w p enc ic = Except.ok df := by
  unfold load_csv
  rw [hr]
  exact ⟨_, rfl⟩

theorem load_csv_present (w : World) (p enc : String)
    (cols : List String) (rows : List (List String))
    (hr : w.readCsv p enc = Except.ok (cols, rows))
    (hc : cols.contains "email_id" = true) :
    load_csv w p enc (some "email_id")
      = Except.ok (DataFrame.setIndex ⟨cols, rows, DFIndex.positional⟩ "email_id") := by
  unfold load_csv
  rw [hr]
  have hm : "email_id" ∈ cols := by simpa using hc
  simp [pyTruthy, hm]

theorem load_csv_absent (w : World) (p enc c : String)
    (cols : List String) (rows : List (List String))
    (hr : w.readCsv p enc = Except.ok (cols, rows))
    (hc : cols.contains c = false) :
    load_csv w p enc (some c) = Except.ok ⟨cols, rows, DFIndex.positional⟩ := by
  unfold load_csv
  rw [hr]
  have hm : ¬ (c ∈ cols) := by simpa using hc
  simp [pyTruthy, hm]

theorem load_csv_no_col (w : World) (p enc : String)
    (cols : List String) (rows : List (List String))
    (hr : w.readCsv p enc = Except.ok (cols, rows)) :
    load_csv w p enc none = Except.ok ⟨cols, rows, DFIndex.positional⟩ := by
  unfold load_csv
  rw [hr]
  simp [pyTruthy]

theorem setIndex_of_colIndex (cols : List String) (rows : List (List String))
    (c : String) (i : Nat) (hi : colIndex cols c = some i) :
    DataFrame.setIndex ⟨cols, rows, DFIndex.positional⟩ c =
      ⟨cols.eraseIdx i, rows.map (fun r => r.eraseIdx i),
        DFIndex.labeled c (rows.map (fun r => r.getD i ""))⟩ := by
  unfold DataFrame.setIndex
  dsimp only
  rw [hi]

theorem columnValues_of_colIndex (cols : List String) (rows : List (List String))
    (c : String) (i : Nat) (hi : colIndex cols c = some i) :
    columnValues cols rows c = rows.map (fun r => r.getD i "") := by
  unfold columnValues
  rw [hi]

theorem setIndex_rows_length (df : DataFrame) (c : String) :
    ((df.setIndex c).rows).length = df.rows.length := by
  unfold DataFrame.setIndex
  split <;> simp

theorem load_csv_ok_rows_length (w : World) (p enc : String) (ic : Option String)
    (cols : List String) (rows : List (List String)) (df : DataFrame)
    (hr : w.readCsv p enc = Except.ok (cols, rows))
    (h : load_csv w p enc ic = Except.ok df) :
    df.rows.length = rows.length := by
  unfold load_csv at h
  rw [hr] at h
  dsimp only at h
  split at h
  · injection h with h2
    rw [← h2]
    exact setIndex_rows_length ⟨cols, rows, DFIndex.positional⟩ (ic.getD "")
  · injection h with h2
    rw [← h2]

theorem pyTruthy_getD (o : Option String) (h : pyTruthy o = true) :
    o = some (o.getD "") := by
  cases o with
  | none => simp [pyTruthy] at h
  | some s => rfl

theorem runLoaded_error (w : World) (a : Args) (fp e : String)
    (h : load_csv w fp a.encoding (if a.noIndex then none else some "email_id")
      = Except.error e) :
    runLoaded w a fp =
      ⟨Outcome.exited 4, [OutLine.loading fp a.encoding, OutLine.loadError e],
        [], none⟩ := by
  unfold runLoaded
  rw [h]
  rfl

theorem runLoaded_ok_loaded (w : World) (a : Args) (fp : String) (df : DataFrame)
    (h : load_csv w fp a.encoding (if a.noIndex then none else some "email_id")
      = Except.ok df) :
    (runLoaded w a fp).loaded = some df := by
  unfold runLoaded
  rw [h]
  dsimp only
  split
  · split <;> rfl
  · rfl

theorem runLoaded_ok_outcome (w : World) (a : Args) (fp : String) (df : DataFrame)
    (h : load_csv w fp a.encoding (if a.noIndex then none else some "email_id")
      = Except.ok df) :
    (runLoaded w a fp).outcome =
      (if pyTruthy a.savePickle then
        match w.pickleWrite (a.savePickle.getD "") with
        | none => Outcome.exited 0
        | some msg => Outcome.raised msg
      else Outcome.exited 0) := by
  unfold runLoaded
  rw [h]
  dsimp only
  split
  · split <;> rfl
  · rfl

theorem runLoaded_ok_writes (w : World) (a : Args) (fp : String) (df : DataFrame)
    (h : load_csv w fp a.encoding (if a.noIndex then none else some "email_id")
      = Except.ok df) :
    (runLoaded w a fp).writes =
      (if pyTruthy a.savePickle && (w.pickleWrite (a.savePickle.getD "")).isNone
       then [a.savePickle.getD ""] else []) := by
  unfold runLoaded
  rw [h]
  dsimp only
  cases hs : pyTruthy a.savePickle
  · simp only [Bool.false_eq_true, if_false, Bool.false_and]
  · simp only [if_true, Bool.true_and]
    cases hw : w.pickleWrite (a.savePickle.getD "") <;> simp [hw]

theorem runLoaded_ok_output (w : World) (a : Args) (fp : String) (df : DataFrame)
    (h : load_csv w fp a.encoding (if a.noIndex then none else some "email_id")
      = Except.ok df) :
    (runLoaded w a fp).output =
      (if a.head != 0
        then [OutLine.loading fp a.encoding, OutLine.loadedOk,
              OutLine.shape df.rows.length df.columns.length,
              OutLine.columnsLine df.columns,
              OutLine.showingTop (df.headRows a.head)]
        else [OutLine.loading fp a.encoding, OutLine.loadedOk,
              OutLine.shape df.rows.length df.columns.length,
              OutLine.columnsLine df.columns])
      ++ (if pyTruthy a.savePickle && (w.pickleWrite (a.savePickle.getD "")).isNone
          then [OutLine.wrotePickle (a.savePickle.getD "")] else []) := by
  unfold runLoaded
  rw [h]
  dsimp only
  cases hh : a.head != 0 <;> cases hs : pyTruthy a.savePickle <;>
    simp only [Bool.false_eq_true, if_false, if_true, Bool.false_and, Bool.true_and]
  · rfl
  · cases hw : w.pickleWrite (a.savePickle.getD "") <;> simp [hw]
  · rfl
  · cases hw : w.pickleWrite (a.savePickle.getD "") <;> simp [hw]

/-- Claim C1: the resolver applies exactly this priority order: a literal
candidate that exists is returned immediately (regardless of the tree, so
without searching); otherwise the first exact-name hit of the traversal;
otherwise, and only when the exact-name search found nothing, the first
`.csv` entry whose name contains the target as a case-insensitive
substring; and when that stage finds nothing either, none. -/
theorem C1_resolver_priority (w : World) (name : String) :
    (pathExists w name = true →
      (find_file_by_name w name = some name
        ∧ ∀ t : List FSEntry,
            find_file_by_name ⟨w.stat, t, w.readCsv, w.pickleWrite⟩ name = some name))
    ∧ (pathExists w name = false →
        ∀ e, (w.tree.filter (fun x => x.name == name)).head? = some e →
          find_file_by_name w name = some e.path)
    ∧ (pathExists w name = false →
        (w.tree.filter (fun x => x.name == name)).head? = none →
          find_file_by_name w name
            = ((w.tree.filter (csvSubstringMatch name)).head?).map FSEntry.path)
    ∧ (pathExists w name = false →
        (w.tree.filter (fun x => x.name == name)).head? = none →
        (w.tree.filter (csvSubstringMatch name)).head? = none →
          find_file_by_name w name = none) := by
  refine ⟨fun h => ⟨?_, fun t => ?_⟩, fun h e he => ?_, fun h he => ?_,
    fun h he hc => ?_⟩
  · simp [find_file_by_name, h]
  · have ht : pathExists ⟨w.stat, t, w.readCsv, w.pickleWrite⟩ name = true := h
    simp [find_file_by_name, ht]
  · simp [find_file_by_name, h, he]
  · simp [find_file_by_name, h, he]
  · simp [find_file_by_name, h, he, hc]

/-- Witness for C1 at concrete inputs: in wSearch nothing exists at the
literal path `report.csv` and no entry is named exactly `report.csv`, so
the resolver falls through to the substring stage and returns the
loosely-named csv entry. -/
theorem C1_resolver_priority_witness :
    pathExists wSearch "report.csv" = false
    ∧ (wSearch.tree.filter (fun x => x.name == "report.csv")).head? = none
    ∧ find_file_by_name wSearch "report.csv" = some "docs/Q3-REPORT.csv" := by
  refine ⟨by decide, by decide, ?_⟩
  have h := (C1_resolver_priority wSearch "report.csv").2.2.1 (by decide) (by decide)
  rw [h]
  decide

/-- Claim C10: find_file_by_name tests only path existence, never that the
candidate is a regular file: a literal candidate that exists is returned
whatever kind of entry sits there (in particular a directory), and a
directory hit of the exact-name traversal is likewise returned rather than
skipped in favour of later stages. -/
theorem C10_directories_not_skipped (w : World) (name : String) :
    (∀ k, w.stat name = some k → find_file_by_name w name = some name)
    ∧ (w.stat name = none →
        ∀ e, (w.tree.filter (fun x => x.name == name)).head? = some e →
          e.kind = FileKind.dir → find_file_by_name w name = some e.path) := by
  constructor
  · intro k hk
    have h : pathExists w name = true := by simp [pathExists, hk]
    simp [find_file_by_name, h]
  · intro hn e he _
    have h : pathExists w name = false := by simp [pathExists, hn]
    simp [find_file_by_name, h, he]

/-- Witness for C10: in wDirs the literal candidate `build` is a directory
and is still returned, and the exact-name hit `a/target.csv` is a
directory and is still returned. -/
theorem C10_directories_not_skipped_witness :
    wDirs.stat "build" = some FileKind.dir
    ∧ find_file_by_name wDirs "build" = some "build"
    ∧ wDirs.stat "target.csv" = none
    ∧ (wDirs.tree.filter (fun x => x.name == "target.csv")).head?
        = some (FSEntry.mk "a/target.csv" "target.csv" FileKind.dir)
    ∧ find_file_by_name wDirs "target.csv" = some "a/target.csv" := by
  refine ⟨by decide, ?_, by decide, by decide, ?_⟩
  · exact (C10_directories_not_skipped wDirs "build").1 FileKind.dir (by decide)
  · exact (C10_directories_not_skipped wDirs "target.csv").2 (by decide)
      (FSEntry.mk "a/target.csv" "target.csv" FileKind.dir) (by decide) rfl

/-- Claim C2: main exits 0 on success; 2 when a truthy explicit path does
not exist, in which case the search tree is never consulted; 3 when no
truthy explicit path is given and the search finds nothing; 4 when the
parser raises, whose message is printed before aborting. -/
theorem C2_exit_codes (w : World) (a : Args) :
    (∀ p, a.path = some p → pyTruthy a.path = true → pathExists w p = false →
      (main w a).outcome = Outcome.exited 2
      ∧ ∀ t, main ⟨w.stat, t, w.readCsv, w.pickleWrite⟩ a = main w a)
    ∧ (pyTruthy a.path = false → find_file_by_name w targetName = none →
      (main w a).outcome = Outcome.exited 3)
    ∧ (∀ fp e, resolvedTo w a fp → w.readCsv fp a.encoding = Except.error e →
      (main w a).outcome = Outcome.exited 4
      ∧ OutLine.loadError e ∈ (main w a).output)
    ∧ (∀ fp cols rows, resolvedTo w a fp →
      w.readCsv fp a.encoding = Except.ok (cols, rows) →
      (pyTruthy a.savePickle = false ∨
        w.pickleWrite (a.savePickle.getD "") = none) →
      (main w a).outcome = Outcome.exited 0) := by
  refine ⟨fun p hp ht he => ?_, fun ht hf => ?_, fun fp e hres hr => ?_,
    fun fp cols rows hres hr hpk => ?_⟩
  · have hg : a.path.getD "" = p := by rw [hp]; rfl
    have he2 : ∀ t : List FSEntry,
        pathExists ⟨w.stat, t, w.readCsv, w.pickleWrite⟩ p = false := fun _ => he
    constructor
    · simp [main, ht, hg, he]
    · intro t
      simp [main, ht, hg, he, he2 t]
  · simp [main, ht, hf]
  · have hl := load_csv_error w fp a.encoding e
      (if a.noIndex then none else some "email_id") hr
    rw [main_eq_runLoaded w a fp hres, runLoaded_error w a fp e hl]
    exact ⟨rfl, by simp⟩
  · obtain ⟨df, hl⟩ := load_csv_ok_exists w fp a.encoding
      (if a.noIndex then none else some "email_id") cols rows hr
    rw [main_eq_runLoaded w a fp hres, runLoaded_ok_outcome w a fp df hl]
    rcases hpk with hpk | hpk
    · simp [hpk]
    · rw [hpk]
      split <;> rfl

/-- Witness for C2 at a concrete input: a truthy explicit path that does
not exist makes the run exit with code 2. -/
theorem C2_exit_codes_witness :
    (main wOk aMissing).outcome = Outcome.exited 2 :=
  ((C2_exit_codes wOk aMissing).1 "missing.csv" rfl (by decide) (by decide)).1

/-- Claim C3: when the parsed CSV has an email_id column, the loaded
table's index holds the values of that column unless no-index was given,
in which case the table is kept as parsed, with its positional index. -/
theorem C3_email_id_index (w : World) (a : Args) (fp : String)
    (cols : List String) (rows : List (List String))
    (hres : resolvedTo w a fp)
    (hr : w.readCsv fp a.encoding = Except.ok (cols, rows))
    (hc : cols.contains "email_id" = true) :
    ∃ df, (main w a).loaded = some df
      ∧ (a.noIndex = false →
          df.index = DFIndex.labeled "email_id" (columnValues cols rows "email_id"))
      ∧ (a.noIndex = true →
          df.index = DFIndex.positional ∧ df.columns = cols ∧ df.rows = rows) := by
  rw [main_eq_runLoaded w a fp hres]
  cases hni : a.noIndex
  · have hic : (if a.noIndex then none else some "email_id") = some "email_id" := by
      rw [hni]; rfl
    obtain ⟨i, hi⟩ := contains_colIndex cols "email_id" hc
    have hl : load_csv w fp a.encoding (if a.noIndex then none else some "email_id")
        = Except.ok (DataFrame.setIndex ⟨cols, rows, DFIndex.positional⟩ "email_id") := by
      rw [hic]
      exact load_csv_present w fp a.encoding cols rows hr hc
    refine ⟨_, runLoaded_ok_loaded w a fp _ hl, fun _ => ?_, fun h => ?_⟩
    · rw [setIndex_of_colIndex cols rows "email_id" i hi]
      dsimp only
      rw [columnValues_of_colIndex cols rows "email_id" i hi]
    · exact absurd h (by decide)
  · have hic : (if a.noIndex then none else some "email_id") = none := by
      rw [hni]; rfl
    have hl : load_csv w fp a.encoding (if a.noIndex then none else some "email_id")
        = Except.ok ⟨cols, rows, DFIndex.positional⟩ := by
      rw [hic]
      exact load_csv_no_col w fp a.encoding cols rows hr
    refine ⟨_, runLoaded_ok_loaded w a fp _ hl, fun h => ?_,
      fun _ => ⟨rfl, rfl, rfl⟩⟩
    exact absurd h (by decide)

/-- Witness for C3: the sample CSV has an email_id column, and with the
default arguments the loaded table carries it as the index. -/
theorem C3_email_id_index_witness :
    ∃ df, (main wOk aExplicit).loaded = some df
      ∧ (aExplicit.noIndex = false →
          df.index = DFIndex.labeled "email_id"
            (columnValues sampleCols sampleRows "email_id"))
      ∧ (aExplicit.noIndex = true →
          df.index = DFIndex.positional ∧ df.columns = sampleCols
            ∧ df.rows = sampleRows) :=
  C3_email_id_index wOk aExplicit "data.csv" sampleCols sampleRows
    (Or.inl ⟨by decide, rfl, by decide⟩) rfl (by decide)

/-- Claim C5: a supplied index-column name that is absent from the parsed
columns makes load_csv return the table unmodified with its positional
index, without raising; at the CLI level this is not a failure and the
run still exits 0. -/
theorem C5_absent_index_silent (w : World) (a : Args)
    (fp p enc c : String) (cols : List String) (rows : List (List String)) :
    (w.readCsv p enc = Except.ok (cols, rows) → cols.contains c = false →
      load_csv w p enc (some c) = Except.ok ⟨cols, rows, DFIndex.positional⟩)
    ∧ (resolvedTo w a fp → w.readCsv fp a.encoding = Except.ok (cols, rows) →
        cols.contains "email_id" = false →
        (main w a).loaded = some ⟨cols, rows, DFIndex.positional⟩
        ∧ ((pyTruthy a.savePickle = false ∨
            w.pickleWrite (a.savePickle.getD "") = none) →
          (main w a).outcome = Outcome.exited 0)) := by
  constructor
  · exact fun hr hc => load_csv_absent w p enc c cols rows hr hc
  · intro hres hr hc
    have hl : load_csv w fp a.encoding (if a.noIndex then none else some "email_id")
        = Except.ok ⟨cols, rows, DFIndex.positional⟩ := by
      cases hni : a.noIndex
      · exact load_csv_absent w fp a.encoding "email_id" cols rows hr hc
      · exact load_csv_no_col w fp a.encoding cols rows hr
    rw [main_eq_runLoaded w a fp hres]
    refine ⟨runLoaded_ok_loaded w a fp _ hl, fun hpk => ?_⟩
    rw [runLoaded_ok_outcome w a fp _ hl]
    rcases hpk with hpk | hpk
    · simp [hpk]
    · rw [hpk]
      split <;> rfl

/-- Witness for C5: the email_id-free sample loads unchanged, keeps its
positional index, and the run exits 0. -/
theorem C5_absent_index_silent_witness :
    load_csv wNoId "plain.csv" "latin-1" (some "email_id")
      = Except.ok ⟨["id", "subject"], [["1", "hi"]], DFIndex.positional⟩
    ∧ (main wNoId aPlain).loaded
      = some ⟨["id", "subject"], [["1", "hi"]], DFIndex.positional⟩
    ∧ (main wNoId aPlain).outcome = Outcome.exited 0 := by
  have h := C5_absent_index_silent wNoId aPlain "plain.csv" "plain.csv" "latin-1"
    "email_id" ["id", "subject"] [["1", "hi"]]
  have h2 := h.2 (Or.inl ⟨by decide, rfl, by decide⟩) rfl (by decide)
  exact ⟨h.1 rfl (by decide), h2.1, h2.2 (Or.inl (by decide))⟩

/-- Claim C6: with head 0 no preview is printed; with head 3 on a table of
at least 3 rows the preview shows exactly 3 rows; the argparse default for
head is 5. -/
theorem C6_head_preview (w : World) (a : Args) (fp : String)
    (cols : List String) (rows : List (List String))
    (hres : resolvedTo w a fp)
    (hr : w.readCsv fp a.encoding = Except.ok (cols, rows)) :
    (a.head = 0 → ∀ rs, OutLine.showingTop rs ∉ (main w a).output)
    ∧ (a.head = 3 → 3 ≤ rows.length →
        ∃ df, (main w a).loaded = some df
          ∧ OutLine.showingTop (df.headRows 3) ∈ (main w a).output
          ∧ (df.headRows 3).length = 3)
    ∧ aDefault.head = 5 := by
  obtain ⟨df, hl⟩ := load_csv_ok_exists w fp a.encoding
    (if a.noIndex then none else some "email_id") cols rows hr
  rw [main_eq_runLoaded w a fp hres]
  refine ⟨fun h0 rs => ?_, fun h3 hlen => ?_, rfl⟩
  · rw [runLoaded_ok_output w a fp df hl]
    have hh : (a.head != 0) = false := by rw [h0]; rfl
    rw [hh]
    simp only [Bool.false_eq_true, if_false]
    split <;> simp
  · refine ⟨df, runLoaded_ok_loaded w a fp df hl, ?_, ?_⟩
    · rw [runLoaded_ok_output w a fp df hl, h3]
      rw [show ((3 : Int) != 0) = true from by decide]
      simp only [if_true]
      split <;> simp
    · have hlen2 : df.rows.length = rows.length :=
        load_csv_ok_rows_length w fp a.encoding _ cols rows df hr hl
      have he : DataFrame.headRows df 3 = df.rows.take 3 := by
        unfold DataFrame.headRows
        rw [if_pos (by decide : (0 : Int) ≤ 3)]
        rfl
      rw [he, List.length_take]
      omega

/-- Witness for C6: on the four-row sample, head 0 prints no preview and
head 3 previews the first three rows of the indexed table. -/
theorem C6_head_preview_witness :
    OutLine.showingTop [] ∉ (main wOk aHead0).output
    ∧ OutLine.showingTop [["hello"], ["re"], ["fwd"]] ∈ (main wOk aHead3).output
    ∧ aDefault.head = 5 := by
  refine ⟨(C6_head_preview wOk aHead0 "data.csv" sampleCols sampleRows
    (Or.inl ⟨by decide, rfl, by decide⟩) rfl).1 rfl [], ?_, rfl⟩
  obtain ⟨df, hdf, hmem, _⟩ := (C6_head_preview wOk aHead3 "data.csv" sampleCols
    sampleRows (Or.inl ⟨by decide, rfl, by decide⟩) rfl).2.1 rfl (by decide)
  have hconc : (main wOk aHead3).loaded
      = some ⟨["subject"], [["hello"], ["re"], ["fwd"], ["news"]],
          DFIndex.labeled "email_id" ["e1", "e2", "e3", "e4"]⟩ := by decide
  rw [hconc] at hdf
  injection hdf with hdf
  rw [← hdf] at hmem
  exact hmem

/-- Claim C9: the preview branch fires for every non-zero parsed head
value, negative ones included; for a negative N pandas head keeps all rows
except the last |N|; suppression happens only at exactly 0. -/
theorem C9_negative_head (w : World) (a : Args) (fp : String)
    (cols : List String) (rows : List (List String))
    (hres : resolvedTo w a fp)
    (hr : w.readCsv fp a.encoding = Except.ok (cols, rows)) :
    (a.head ≠ 0 →
      ∃ df, (main w a).loaded = some df
        ∧ OutLine.showingTop (df.headRows a.head) ∈ (main w a).output)
    ∧ (∀ df : DataFrame, a.head < 0 →
        df.headRows a.head = df.rows.take (df.rows.length - a.head.natAbs)) := by
  obtain ⟨df, hl⟩ := load_csv_ok_exists w fp a.encoding
    (if a.noIndex then none else some "email_id") cols rows hr
  rw [main_eq_runLoaded w a fp hres]
  refine ⟨fun h0 => ?_, fun d hneg => ?_⟩
  · refine ⟨df, runLoaded_ok_loaded w a fp df hl, ?_⟩
    rw [runLoaded_ok_output w a fp df hl]
    have hh : (a.head != 0) = true := by simpa using h0
    rw [hh]
    simp only [if_true]
    split <;> simp
  · unfold DataFrame.headRows
    rw [if_neg (by omega : ¬ (0 : Int) ≤ a.head)]

/-- Witness for C9: with head -1 on the four-row sample, the preview still
fires and shows all rows but the last one. -/
theorem C9_negative_head_witness :
    OutLine.showingTop [["hello"], ["re"], ["fwd"]] ∈ (main wOk aHeadNeg).output := by
  obtain ⟨df, hdf, hmem⟩ := (C9_negative_head wOk aHeadNeg "data.csv" sampleCols
    sampleRows (Or.inl ⟨by decide, rfl, by decide⟩) rfl).1 (by decide)
  have hconc : (main wOk aHeadNeg).loaded
      = some ⟨["subject"], [["hello"], ["re"], ["fwd"], ["news"]],
          DFIndex.labeled "email_id" ["e1", "e2", "e3", "e4"]⟩ := by decide
  rw [hconc] at hdf
  injection hdf with hdf
  rw [← hdf] at hmem
  exact hmem

/-- Claim C7: given a truthy save-pickle path and a successful load, after
the run the snapshot has been written at that path and a confirmation line
is printed; the write happens unconditionally, whether or not something
already sits at the output path (no hypothesis on w.stat op is needed),
so an existing file is overwritten without confirmation. -/
theorem C7_save_pickle (w : World) (a : Args) (fp op : String)
    (cols : List String) (rows : List (List String))
    (hres : resolvedTo w a fp)
    (hr : w.readCsv fp a.encoding = Except.ok (cols, rows))
    (hsp : a.savePickle = some op) (hne : op ≠ "")
    (hw : w.pickleWrite op = none) :
    (main w a).outcome = Outcome.exited 0
    ∧ OutLine.wrotePickle op ∈ (main w a).output
    ∧ (main w a).writes = [op] := by
  obtain ⟨df, hl⟩ := load_csv_ok_exists w fp a.encoding
    (if a.noIndex then none else some "email_id") cols rows hr
  rw [main_eq_runLoaded w a fp hres]
  have ht : pyTruthy a.savePickle = true := by
    rw [hsp]
    simpa [pyTruthy] using hne
  have hg : a.savePickle.getD "" = op := by rw [hsp]; rfl
  refine ⟨?_, ?_, ?_⟩
  · rw [runLoaded_ok_outcome w a fp df hl, ht, hg, hw]
    rfl
  · rw [runLoaded_ok_output w a fp df hl, ht, hg, hw]
    simp
  · rw [runLoaded_ok_writes w a fp df hl, ht, hg, hw]
    rfl

/-- Witness for C7: on the sample world, saving to out.pkl exits 0,
prints the confirmation, and records the single write. -/
theorem C7_save_pickle_witness :
    (main wOk aPickle).outcome = Outcome.exited 0
    ∧ OutLine.wrotePickle "out.pkl" ∈ (main wOk aPickle).output
    ∧ (main wOk aPickle).writes = ["out.pkl"] :=
  C7_save_pickle wOk aPickle "data.csv" "out.pkl" sampleCols sampleRows
    (Or.inl ⟨by decide, rfl, by decide⟩) rfl rfl (by decide) rfl

theorem runLoaded_writes_sub (w : World) (a : Args) (fp : String) :
    (pyTruthy a.savePickle = false → (runLoaded w a fp).writes = [])
    ∧ (∀ p, p ∈ (runLoaded w a fp).writes → a.savePickle = some p) := by
  cases hl : load_csv w fp a.encoding (if a.noIndex then none else some "email_id") with
  | error e =>
    rw [runLoaded_error w a fp e hl]
    exact ⟨fun _ => rfl, fun p hp => absurd hp (List.not_mem_nil p)⟩
  | ok df =>
    constructor
    · intro hs
      rw [runLoaded_ok_writes w a fp df hl]
      simp [hs]
    · intro p hp
      rw [runLoaded_ok_writes w a fp df hl] at hp
      split at hp
      · rename_i hcond
        rw [List.mem_singleton] at hp
        have ht : pyTruthy a.savePickle = true := (Bool.and_eq_true _ _).mp hcond |>.1
        rw [hp]
        exact pyTruthy_getD a.savePickle ht
      · exact absurd hp (List.not_mem_nil p)

/-- Claim C8: the only file the tool ever writes is the pickle snapshot:
without a truthy save-pickle argument no invocation writes any file, and
any written path is exactly the save-pickle argument. -/
theorem C8_no_writes_without_save (w : World) (a : Args) :
    (pyTruthy a.savePickle = false → (main w a).writes = [])
    ∧ (∀ p, p ∈ (main w a).writes → a.savePickle = some p) := by
  unfold main
  cases hp : pyTruthy a.path
  · simp only [Bool.false_eq_true, if_false]
    cases hf : find_file_by_name w targetName
    · exact ⟨fun _ => rfl, fun p hp2 => absurd hp2 (List.not_mem_nil p)⟩
    · exact runLoaded_writes_sub w a _
  · simp only [if_true]
    cases he : pathExists w (a.path.getD "")
    · simp only [Bool.false_eq_true, if_false]
      exact ⟨fun _ => trivial, fun p hp2 => absurd hp2 (List.not_mem_nil p)⟩
    · simp only [if_true]
      exact runLoaded_writes_sub w a _

/-- Witness for C8: an invocation without save-pickle writes nothing. -/
theorem C8_no_writes_without_save_witness :
    (main wOk aExplicit).writes = [] :=
  (C8_no_writes_without_save wOk aExplicit).1 (by decide)

/-- Counterexample to C4 as stated: in a world where the snapshot write
raises after a successful load, the invocation does not end in any of the
three handled failure kinds with an exit code; the exception escapes main
uncaught (to_pickle sits outside the try/except), so Python surfaces a
stack trace. -/
theorem C4_counterexample :
    (main wBadPickle aPickle).outcome = Outcome.raised "No space left on device"
    ∧ (main wBadPickle aPickle).outcome ≠ Outcome.exited 0
    ∧ (main wBadPickle aPickle).outcome ≠ Outcome.exited 2
    ∧ (main wBadPickle aPickle).outcome ≠ Outcome.exited 3
    ∧ (main wBadPickle aPickle).outcome ≠ Outcome.exited 4 := by
  refine ⟨by decide, by decide, by decide, by decide, by decide⟩

theorem runLoaded_exit_ok_or_4 (w : World) (a : Args) (fp : String)
    (hpk : ∀ p, a.savePickle = some p → w.pickleWrite p = none) :
    (runLoaded w a fp).outcome = Outcome.exited 0
    ∨ ((runLoaded w a fp).outcome = Outcome.exited 4
        ∧ ∃ e, OutLine.loadError e ∈ (runLoaded w a fp).output) := by
  cases hl : load_csv w fp a.encoding (if a.noIndex then none else some "email_id") with
  | error e =>
    rw [runLoaded_error w a fp e hl]
    exact Or.inr ⟨rfl, e, by simp⟩
  | ok df =>
    left
    rw [runLoaded_ok_outcome w a fp df hl]
    cases hs : pyTruthy a.savePickle
    · simp
    · have hsp := pyTruthy_getD a.savePickle hs
      rw [hpk (a.savePickle.getD "") hsp]
      simp

/-- Claim C4, amended: on every invocation whose snapshot write (if any)
succeeds, the run ends with an explicit exit code that is 0 or one of the
three failure kinds 2, 3, 4, each failure printing its one-line
diagnostic; an exception raised by the snapshot write itself, however, is
not caught and propagates out of main as an uncaught exception. -/
theorem C4_failure_kinds_amended (w : World) (a : Args)
    (hpk : ∀ p, a.savePickle = some p → w.pickleWrite p = none) :
    (main w a).outcome = Outcome.exited 0
    ∨ ((main w a).outcome = Outcome.exited 2
        ∧ ∃ p, OutLine.fileNotFound p ∈ (main w a).output)
    ∨ ((main w a).outcome = Outcome.exited 3
        ∧ OutLine.couldNotFind targetName ∈ (main w a).output)
    ∨ ((main w a).outcome = Outcome.exited 4
        ∧ ∃ e, OutLine.loadError e ∈ (main w a).output) := by
  unfold main
  cases hp : pyTruthy a.path
  · simp only [Bool.false_eq_true, if_false]
    cases hf : find_file_by_name w targetName
    · exact Or.inr (Or.inr (Or.inl ⟨rfl, by simp⟩))
    · rcases runLoaded_exit_ok_or_4 w a _ hpk with h | h
      · exact Or.inl h
      · exact Or.inr (Or.inr (Or.inr h))
  · simp only [if_true]
    cases he : pathExists w (a.path.getD "")
    · simp only [Bool.false_eq_true, if_false]
      exact Or.inr (Or.inl ⟨trivial, a.path.getD "", by simp⟩)
    · simp only [if_true]
      rcases runLoaded_exit_ok_or_4 w a _ hpk with h | h
      · exact Or.inl h
      · exact Or.inr (Or.inr (Or.inr h))

/-- Witness for the amended C4: with a succeeding pickle oracle the sample
invocation lands in one of the four exit codes. -/
theorem C4_failure_kinds_amended_witness :
    (main wOk aPickle).outcome = Outcome.exited 0
    ∨ ((main wOk aPickle).outcome = Outcome.exited 2
        ∧ ∃ p, OutLine.fileNotFound p ∈ (main wOk aPickle).output)
    ∨ ((main wOk aPickle).outcome = Outcome.exited 3
        ∧ OutLine.couldNotFind targetName ∈ (main wOk aPickle).output)
    ∨ ((main wOk aPickle).outcome = Outcome.exited 4
        ∧ ∃ e, OutLine.loadError e ∈ (main wOk aPickle).output) :=
  C4_failure_kinds_amended wOk aPickle (fun _ _ => rfl)

end LoadAlexEmails
